import Mathlib

/-!
Verification of the real-time messaging and notification core of a
CRM-style backend (Django application).  Each definition below is a
shallow embedding of one Python function or method from the repository,
translated as directly as Lean allows:

* `apps/notifications/models.py` — `NotificationPreference.is_in_quiet_hours`,
  `is_weekend_and_disabled`, `should_send_notification`,
  `Notification.mark_as_delivered`, `Notification.mark_as_read`;
* `apps/notifications/signals.py` — `process_notification`;
* `apps/messaging/models.py` — `Message.mark_as_read`,
  `TypingIndicator.set_typing`, `TypingIndicator.stop_typing`;
* `apps/messaging/consumers.py` — `ChatConsumer` (connect, receive,
  handle_chat_message, save_message, typing handlers) and
  `NotificationConsumer.mark_notification_read`;
* `apps/customers/models.py` — `Conversation.increment_message_count`.

Clock readings (`timezone.now()`), weekday, generated ids and the daily
notification count are passed in as explicit parameters.  Times of day
are minutes since midnight; Python `time` comparison is `Nat` comparison.
-/

namespace CRMCore

/-- `Notification.Priority` text choices (`low`, `normal`, `high`, `urgent`). -/
inductive Priority where
  | low
  | normal
  | high
  | urgent
  deriving DecidableEq, Repr

/-- The `priority_order` dictionary used in `should_send_notification`. -/
def priority_order : Priority → Nat
  | Priority.low => 0
  | Priority.normal => 1
  | Priority.high => 2
  | Priority.urgent => 3

/-- `NotificationPreference.DeliveryMethod` (the three the dispatcher iterates). -/
inductive DeliveryMethod where
  | in_app
  | email
  | push
  deriving DecidableEq, Repr

/-- The fields of `NotificationPreference` that its behavior reads.
`quiet_hours_start` and `quiet_hours_end` are nullable `TimeField`s,
modelled as minutes since midnight. -/
structure NotificationPreference where
  is_enabled : Bool
  minimum_priority : Priority
  quiet_hours_start : Option Nat
  quiet_hours_end : Option Nat
  weekend_enabled : Bool
  max_per_day : Option Nat
  deriving DecidableEq, Repr

/-- `NotificationPreference.is_in_quiet_hours` (property): returns False
unless both bounds are set; same-day window uses the chained comparison
`start <= now <= end`; the cross-midnight branch uses
`now >= start or now <= end`.  `now` is `timezone.now().time()`. -/
def NotificationPreference.is_in_quiet_hours
    (p : NotificationPreference) (now : Nat) : Bool :=
  match p.quiet_hours_start, p.quiet_hours_end with
  | some s, some e =>
      if s ≤ e then decide (s ≤ now ∧ now ≤ e)
      else decide (now ≥ s ∨ now ≤ e)
  | _, _ => false

/-- `NotificationPreference.is_weekend_and_disabled` (property):
`weekday` is Python `weekday()` (Saturday = 5, Sunday = 6). -/
def NotificationPreference.is_weekend_and_disabled
    (p : NotificationPreference) (weekday : Nat) : Bool :=
  if p.weekend_enabled then false
  else decide (weekday ≥ 5)

/-- `NotificationPreference.should_send_notification`.  The notification
argument is reduced to its priority; `today_count` stands for the
result of the daily-count query.  `if self.max_per_day:` is a Python
truthiness test, false for both `None` and `0`. -/
def NotificationPreference.should_send_notification
    (p : NotificationPreference) (prio : Priority)
    (now weekday today_count : Nat) : Bool :=
  if ¬ p.is_enabled then false
  else if priority_order prio < priority_order p.minimum_priority then false
  else if p.is_in_quiet_hours now ∧ prio ≠ Priority.urgent then false
  else if p.is_weekend_and_disabled weekday ∧ prio ≠ Priority.urgent then false
  else
    match p.max_per_day with
    | some m => if m ≠ 0 ∧ today_count ≥ m then false else true
    | none => true

/-- The default preference returned by `get_user_preference` when no row
exists: enabled, minimum priority `normal`, no quiet hours, weekends on,
no daily cap (unsaved model instance field defaults). -/
def defaultPreference : NotificationPreference :=
  { is_enabled := true
    minimum_priority := Priority.normal
    quiet_hours_start := none
    quiet_hours_end := none
    weekend_enabled := true
    max_per_day := none }

/-- The fields of `Notification` that the dispatcher and the read path
touch.  `status` holds the stored text choice value. -/
structure NotificationRec where
  priority : Priority
  is_read : Bool
  read_at : Option Nat
  status : String
  in_app_delivered : Bool
  email_delivered : Bool
  push_delivered : Bool
  sent_at : Option Nat
  deriving DecidableEq, Repr

/-- `Notification.mark_as_delivered(delivery_method)`: sets the matching
per-channel flag, then unconditionally sets `status = DELIVERED` and
`sent_at = timezone.now()` and saves. -/
def Notification.mark_as_delivered
    (n : NotificationRec) (method : DeliveryMethod) (now : Nat) : NotificationRec :=
  let n1 :=
    match method with
    | DeliveryMethod.in_app => { n with in_app_delivered := true }
    | DeliveryMethod.email => { n with email_delivered := true }
    | DeliveryMethod.push => { n with push_delivered := true }
  { n1 with status := "delivered", sent_at := some now }

/-- `Notification.mark_as_read`: only acts when `is_read` is still false;
then sets the flag, `read_at = timezone.now()` and `status = READ`. -/
def Notification.mark_as_read (n : NotificationRec) (now : Nat) : NotificationRec :=
  if ¬ n.is_read then
    { n with is_read := true, read_at := some now, status := "read" }
  else n

/-- A freshly created `Notification` row with the given priority: model
field defaults (`status = pending`, read and delivery flags false). -/
def Notification.create (prio : Priority) : NotificationRec :=
  { priority := prio
    is_read := false
    read_at := none
    status := "pending"
    in_app_delivered := false
    email_delivered := false
    push_delivered := false
    sent_at := none }

/-- Observable side effects of `process_notification` besides the row
update.  `pushToUserGroup` would be a realtime push to the recipient's
`user_<id>` group via the channel layer; the signal never emits it. -/
inductive SideEffect where
  | printEmail
  | printPush
  | pushToUserGroup
  deriving DecidableEq, Repr

/-- Body of the per-channel loop of `process_notification`
(`apps/notifications/signals.py`): when `should_send_notification` is
true, the `in_app` branch calls `mark_as_delivered('in_app')`, while the
`email` and `push` branches only print a queued-delivery line. -/
def processChannel (prefs : DeliveryMethod → NotificationPreference)
    (now weekday today_count : Nat)
    (acc : NotificationRec × List SideEffect) (m : DeliveryMethod) :
    NotificationRec × List SideEffect :=
  let n := acc.1
  let effs := acc.2
  if (prefs m).should_send_notification n.priority now weekday today_count then
    match m with
    | DeliveryMethod.in_app => (Notification.mark_as_delivered n DeliveryMethod.in_app now, effs)
    | DeliveryMethod.email => (n, effs ++ [SideEffect.printEmail])
    | DeliveryMethod.push => (n, effs ++ [SideEffect.printPush])
  else (n, effs)

/-- `process_notification` post-save signal handler for a created
`Notification`: iterates over `[IN_APP, EMAIL, PUSH]` in that order.
`prefs` stands for `NotificationPreference.get_user_preference` for the
recipient and notification type. -/
def process_notification (prefs : DeliveryMethod → NotificationPreference)
    (n : NotificationRec) (now weekday today_count : Nat) :
    NotificationRec × List SideEffect :=
  [DeliveryMethod.in_app, DeliveryMethod.email, DeliveryMethod.push].foldl
    (processChannel prefs now weekday today_count) (n, [])

/-- The fields of `Message` (`apps/messaging/models.py`) that the chat
path reads or writes.  `status`, `sender_type` and `message_type` hold
the stored character values exactly as the code writes them. -/
structure Message where
  id : Nat
  content : String
  sender_type : String
  sender_user : Option Nat
  message_type : String
  status : String
  read_by_user : Bool
  read_at : Option Nat
  reply_to : Option Nat
  sent_at : Nat
  deriving DecidableEq, Repr

/-- `Message.mark_as_read(user)`: the `user` argument is unused by the
body; only acts when `read_by_user` is still false, then sets the flag
and `read_at = timezone.now()` together. -/
def Message.mark_as_read (m : Message) (u : Option Nat) (now : Nat) : Message :=
  if ¬ m.read_by_user then
    { m with read_by_user := true, read_at := some now }
  else m

/-- A `TypingIndicator` row: `started_at` is `auto_now_add`,
`last_activity` is `auto_now` (refreshed only on `save()`). -/
structure TypingRow where
  is_typing : Bool
  started_at : Nat
  last_activity : Nat
  deriving DecidableEq, Repr

/-- `TypingIndicator.set_typing(conversation, user, is_typing)`: the row
state for one (conversation, user) pair (`none` = no row yet).
`get_or_create` inserts with the given flag when absent; when present,
`save()` runs only if the flag actually changes — an unchanged flag
leaves the row untouched, `last_activity` included. -/
def TypingIndicator.set_typing
    (row : Option TypingRow) (is_typing : Bool) (now : Nat) : TypingRow :=
  match row with
  | none => { is_typing := is_typing, started_at := now, last_activity := now }
  | some r =>
      if r.is_typing ≠ is_typing then
        { r with is_typing := is_typing, last_activity := now }
      else r

/-- `TypingIndicator.stop_typing`: a queryset `update(is_typing=False)`,
which bypasses `save()` and therefore does not refresh `last_activity`;
creates nothing when no row exists. -/
def TypingIndicator.stop_typing (row : Option TypingRow) : Option TypingRow :=
  row.map fun r => { r with is_typing := false }

/-- `TypingIndicator.cleanup_old_indicators`: deletes rows whose
`last_activity` is strictly before the cutoff. -/
def TypingIndicator.cleanup_old_indicators
    (row : Option TypingRow) (cutoff : Nat) : Option TypingRow :=
  match row with
  | some r => if r.last_activity < cutoff then none else some r
  | none => none

/-- `User.Role` text choices. -/
inductive Role where
  | basic_user
  | manager
  | system_admin
  deriving DecidableEq, Repr

/-- An authenticated user as the consumers see it. -/
structure UserRec where
  id : Nat
  role : Role
  deriving DecidableEq, Repr

/-- The fields of `Conversation` the access check reads. -/
structure ConvRow where
  assigned_user : Option Nat
  deriving DecidableEq, Repr

/-- `ChatConsumer.check_conversation_access`: `conv` is the result of
`Conversation.objects.get` (`none` = `DoesNotExist`, caught and turned
into `False`).  Admin or manager passes; otherwise the user must be the
assigned user. -/
def ChatConsumer.check_conversation_access
    (conv : Option ConvRow) (u : UserRec) : Bool :=
  match conv with
  | none => false
  | some c =>
      if u.role = Role.system_admin ∨ u.role = Role.manager then true
      else decide (c.assigned_user = some u.id)

/-- Outcome of `ChatConsumer.connect`. -/
inductive ConnectOutcome where
  | closed
  | joined
  deriving DecidableEq, Repr

/-- `ChatConsumer.connect`: `self.scope['user']` is `none` when the scope
user is unauthenticated.  On failure the socket is closed before any
`group_add`; on success the consumer joins the room group and accepts.
The second component records whether `group_add` ran. -/
def ChatConsumer.connect
    (user : Option UserRec) (conv : Option ConvRow) : ConnectOutcome × Bool :=
  match user with
  | none => (ConnectOutcome.closed, false)
  | some u =>
      if ChatConsumer.check_conversation_access conv u then
        (ConnectOutcome.joined, true)
      else (ConnectOutcome.closed, false)

/-- The session-open authorization decision of the chat consumer as a
single predicate: unauthenticated principals are rejected before the
conversation access check runs. -/
def authorize (principal : Option UserRec) (conv : Option ConvRow) : Bool :=
  match principal with
  | none => false
  | some u => ChatConsumer.check_conversation_access conv u

/-- One inbound client frame after JSON parsing, as `ChatConsumer.receive`
dispatches on `type`.  `invalid` covers undecodable JSON and unknown
`type` values alike. -/
inductive Frame where
  | chat_message (content : Option String) (reply_to : Option Nat)
  | typing_start
  | typing_stop
  | message_read (message_id : Option Nat)
  | invalid
  deriving DecidableEq, Repr

/-- Observable actions of the chat consumer, in program order:
database persists and status updates, `group_send` broadcasts, frames
sent back to the submitting client, closing the socket. -/
inductive Event where
  | persistMessage (m : Message)
  | statusTransition (old next : String)
  | broadcastChat (m : Message)
  | broadcastTyping (uid : Nat) (is_typing : Bool)
  | broadcastRead (message_id : Nat) (read_by : Nat) (read_at : Nat)
  | errorFrame
  | closeConnection
  deriving DecidableEq, Repr

/-- The database state one chat session touches: the conversation's
messages and this user's typing-indicator row. -/
structure ChatState where
  messages : List Message
  typing : Option TypingRow
  deriving DecidableEq, Repr

/-- `ChatConsumer.save_message(content, reply_to_id)`: creates the row in
one step with `sender_type='User'`, `message_type='Text'` and
`status='Sent'` (the stored values, written as the code spells them);
a `reply_to_id` that matches no message is silently dropped. -/
def ChatConsumer.save_message (uid fresh now : Nat) (msgs : List Message)
    (content : String) (reply_to_id : Option Nat) : Message :=
  { id := fresh
    content := content
    sender_type := "User"
    sender_user := some uid
    message_type := "Text"
    status := "Sent"
    read_by_user := false
    read_at := none
    reply_to :=
      match reply_to_id with
      | some r => if msgs.any (fun m => m.id = r) then some r else none
      | none => none
    sent_at := now }

/-- `ChatConsumer.handle_chat_message`: `if not content: return` drops a
missing or empty content silently; otherwise the message is saved and
then broadcast to the room group. -/
def ChatConsumer.handle_chat_message (uid fresh now : Nat) (st : ChatState)
    (content : Option String) (reply_to_id : Option Nat) :
    ChatState × List Event :=
  match content with
  | none => (st, [])
  | some c =>
      if c = "" then (st, [])
      else
        let m := ChatConsumer.save_message uid fresh now st.messages c reply_to_id
        ({ st with messages := st.messages ++ [m] },
         [Event.persistMessage m, Event.broadcastChat m])

/-- `ChatConsumer.handle_typing_start`: sets the indicator, then always
broadcasts a typing event for this user. -/
def ChatConsumer.handle_typing_start (uid now : Nat) (st : ChatState) :
    ChatState × List Event :=
  ({ st with typing := some (TypingIndicator.set_typing st.typing true now) },
   [Event.broadcastTyping uid true])

/-- `ChatConsumer.handle_typing_stop`: stops the indicator, then always
broadcasts a typing-stopped event. -/
def ChatConsumer.handle_typing_stop (uid : Nat) (st : ChatState) :
    ChatState × List Event :=
  ({ st with typing := TypingIndicator.stop_typing st.typing },
   [Event.broadcastTyping uid false])

/-- `ChatConsumer.handle_message_read`: a falsy `message_id` is ignored;
otherwise `mark_message_read` swallows a missing message and the read
broadcast is sent regardless. -/
def ChatConsumer.handle_message_read (uid now : Nat) (st : ChatState)
    (message_id : Option Nat) : ChatState × List Event :=
  match message_id with
  | none => (st, [])
  | some mid =>
      ({ st with messages :=
          st.messages.map fun m =>
            if m.id = mid then Message.mark_as_read m (some uid) now else m },
       [Event.broadcastRead mid uid now])

/-- `ChatConsumer.receive`: dispatch on the frame type; malformed input
is only logged (every raised exception is caught and logged), so no
error frame is ever sent and the connection is never closed here. -/
def ChatConsumer.receive (uid fresh now : Nat) (st : ChatState) (f : Frame) :
    ChatState × List Event :=
  match f with
  | Frame.chat_message c r => ChatConsumer.handle_chat_message uid fresh now st c r
  | Frame.typing_start => ChatConsumer.handle_typing_start uid now st
  | Frame.typing_stop => ChatConsumer.handle_typing_stop uid st
  | Frame.message_read mid => ChatConsumer.handle_message_read uid now st mid
  | Frame.invalid => (st, [])

/-- A stored `Notification` row with its key fields, as the
notification consumer queries them. -/
structure StoredNotif where
  id : Nat
  recipient : Nat
  data : NotificationRec
  deriving DecidableEq, Repr

/-- Whether a stored row matches the `objects.get(id=..., recipient=...)`
filter of `mark_notification_read`. -/
def notifMatch (i uid : Nat) (r : StoredNotif) : Bool :=
  decide (r.id = i) && decide (r.recipient = uid)

/-- `NotificationConsumer.mark_notification_read`: `objects.get` succeeds
only when the filter selects exactly one row (no match raises
`DoesNotExist`, several raise `MultipleObjectsReturned`); every
exception is caught and logged, leaving the store unchanged.  A falsy
`notification_id` makes the lookup raise as well. -/
def NotificationConsumer.mark_notification_read
    (db : List StoredNotif) (uid : Nat) (nid : Option Nat) (now : Nat) :
    List StoredNotif :=
  match nid with
  | none => db
  | some i =>
      if (db.filter (notifMatch i uid)).length = 1 then
        db.map fun r =>
          if notifMatch i uid r then
            { r with data := Notification.mark_as_read r.data now }
          else r
      else db

/-- One inbound frame on a notification session. -/
inductive NotifFrame where
  | notification_ack (notification_id : Option Nat)
  | invalid
  deriving DecidableEq, Repr

/-- `NotificationConsumer.receive`: only `notification_ack` frames act;
nothing is ever sent back to the acking client and every failure is
swallowed. -/
def NotificationConsumer.receive
    (db : List StoredNotif) (uid now : Nat) (f : NotifFrame) :
    List StoredNotif × List Event :=
  match f with
  | NotifFrame.notification_ack nid =>
      (NotificationConsumer.mark_notification_read db uid nid now, [])
  | NotifFrame.invalid => (db, [])

/-- The in-memory `Conversation` instance fields the post-save signal
handler mutates. -/
structure ConvInstance where
  message_count : Nat
  deriving DecidableEq, Repr

/-- `Conversation.increment_message_count`: `self.message_count += 1` on
the in-memory instance; the subsequent `save(update_fields=...)` writes
that in-memory value back. -/
def Conversation.increment_message_count (inst : ConvInstance) : ConvInstance :=
  { inst with message_count := inst.message_count + 1 }

/-- The store-level atomic increment the spec requires
(`count = count + 1` executed at the store). -/
def atomic_increment (stored : Nat) : Nat := stored + 1

/-- Interleaved execution of two concurrent `handle_new_message` signal
handlers on the same conversation.  Each handler performs two atomic
store accesses: loading the instance (reading the stored count) and the
increment-then-save (writing its instance's count + 1 back).  `pc` 0 =
about to load, 1 = about to increment and save, 2 = done. -/
structure TwoSubmitState where
  store : Nat
  snap1 : Option ConvInstance
  pc1 : Nat
  snap2 : Option ConvInstance
  pc2 : Nat
  deriving DecidableEq, Repr

/-- One atomic step of one handler thread against the shared stored
count: returns the new snapshot, program counter and stored value. -/
def submitStep (snap : Option ConvInstance) (pc store : Nat) :
    Option ConvInstance × Nat × Nat :=
  if pc = 0 then (some { message_count := store }, 1, store)
  else if pc = 1 then
    match snap with
    | some inst =>
        let saved := Conversation.increment_message_count inst
        (some saved, 2, saved.message_count)
    | none => (snap, 2, store)
  else (snap, pc, store)

/-- Run a schedule: `false` steps handler 1, `true` steps handler 2. -/
def runSchedule (sched : List Bool) (st : TwoSubmitState) : TwoSubmitState :=
  sched.foldl
    (fun st who =>
      if who then
        let r := submitStep st.snap2 st.pc2 st.store
        { st with snap2 := r.1, pc2 := r.2.1, store := r.2.2 }
      else
        let r := submitStep st.snap1 st.pc1 st.store
        { st with snap1 := r.1, pc1 := r.2.1, store := r.2.2 })
    st

/-- Both handlers poised to run against a conversation whose stored
`message_count` is `c`. -/
def initialSubmits (c : Nat) : TwoSubmitState :=
  { store := c, snap1 := none, pc1 := 0, snap2 := none, pc2 := 0 }

/-- The quiet-hours window exactly as the specification words it: a
half-open window [start, end), possibly wrapping midnight.  Written from
the spec text, for comparison with
`NotificationPreference.is_in_quiet_hours`. -/
def spec_quiet_window (s e now : Nat) : Bool :=
  if s ≤ e then decide (s ≤ now ∧ now < e)
  else decide (s ≤ now ∨ now < e)

/-- The quiet-hours window the code actually implements: closed at both
ends (`start ≤ now ≤ end`, or `now ≥ start or now ≤ end` when the window
wraps midnight). -/
def closed_quiet_window (s e now : Nat) : Bool :=
  if s ≤ e then decide (s ≤ now ∧ now ≤ e)
  else decide (s ≤ now ∨ now ≤ e)

/-- The `Message` read-receipt invariant: `read_at` is set exactly when
the read flag is set. -/
def readConsistent (m : Message) : Prop :=
  m.read_at.isSome = m.read_by_user

instance (m : Message) : Decidable (readConsistent m) := by
  unfold readConsistent
  infer_instance

/-- C4: delivery is refused whenever the notification's priority is
strictly below the preference's minimum under low < normal < high <
urgent (in particular minimum_priority = high blocks low and normal),
and for an urgent notification the outcome is unchanged by any choice of
quiet-hours window or weekend setting. -/
theorem C4_priority_floor_and_urgent :
    (∀ (p : NotificationPreference) (prio : Priority) (now wd cnt : Nat),
        priority_order prio < priority_order p.minimum_priority →
        p.should_send_notification prio now wd cnt = false) ∧
    (∀ (p : NotificationPreference) (now wd cnt : Nat)
        (qs qe : Option Nat) (we : Bool),
        NotificationPreference.should_send_notification
            { p with quiet_hours_start := qs, quiet_hours_end := qe,
                     weekend_enabled := we }
            Priority.urgent now wd cnt
          = p.should_send_notification Priority.urgent now wd cnt) := by
  constructor
  · intro p prio now wd cnt h
    unfold NotificationPreference.should_send_notification
    by_cases he : p.is_enabled <;> simp [he, h]
  · intro p now wd cnt qs qe we
    unfold NotificationPreference.should_send_notification
    simp

/-- C4 witness: a preference with minimum_priority = high refuses low
and normal priority notifications. -/
theorem C4_priority_floor_and_urgent_witness :
    (NotificationPreference.should_send_notification
        { defaultPreference with minimum_priority := Priority.high }
        Priority.low 100 2 0 = false) ∧
    (NotificationPreference.should_send_notification
        { defaultPreference with minimum_priority := Priority.high }
        Priority.normal 100 2 0 = false) :=
  ⟨C4_priority_floor_and_urgent.1
      { defaultPreference with minimum_priority := Priority.high }
      Priority.low 100 2 0 (by decide),
   C4_priority_floor_and_urgent.1
      { defaultPreference with minimum_priority := Priority.high }
      Priority.normal 100 2 0 (by decide)⟩

/-- C8 counterexample: with quiet hours 10:00 to 18:00, at exactly 18:00
the spec's half-open window [start, end) is over, yet the code still
suppresses a normal-priority notification — the implemented window is
closed at the end bound, refuting the claim at this input. -/
theorem C8_counterexample :
    (NotificationPreference.is_in_quiet_hours
        { defaultPreference with quiet_hours_start := some 600,
                                 quiet_hours_end := some 1080 } 1080 = true) ∧
    (spec_quiet_window 600 1080 1080 = false) ∧
    (NotificationPreference.should_send_notification
        { defaultPreference with quiet_hours_start := some 600,
                                 quiet_hours_end := some 1080 }
        Priority.normal 1080 2 0 = false) := by
  decide

/-- C8 amended: for an otherwise unrestricted preference with a quiet
window set, delivery is suppressed exactly when the current time lies in
the CLOSED window [start, end] (both bounds included, wrapping midnight
as `now ≥ start or now ≤ end`) and the priority is not urgent. -/
theorem C8_closed_window_suppression
    (s e now wd cnt : Nat) (prio : Priority) :
    NotificationPreference.should_send_notification
        { is_enabled := true, minimum_priority := Priority.low,
          quiet_hours_start := some s, quiet_hours_end := some e,
          weekend_enabled := true, max_per_day := none }
        prio now wd cnt = false
      ↔ (closed_quiet_window s e now = true ∧ prio ≠ Priority.urgent) := by
  unfold NotificationPreference.should_send_notification
    NotificationPreference.is_in_quiet_hours closed_quiet_window
  cases prio <;>
    by_cases hse : s ≤ e <;>
      simp [hse, priority_order, NotificationPreference.is_weekend_and_disabled] <;>
        omega

/-- C8 amended witness: at 18:00 inside the closed window 10:00 – 18:00,
a normal-priority notification is suppressed. -/
theorem C8_closed_window_suppression_witness :
    NotificationPreference.should_send_notification
        { is_enabled := true, minimum_priority := Priority.low,
          quiet_hours_start := some 600, quiet_hours_end := some 1080,
          weekend_enabled := true, max_per_day := none }
        Priority.normal 1080 2 0 = false :=
  (C8_closed_window_suppression 600 1080 1080 2 0 Priority.normal).mpr
    ⟨by decide, by decide⟩

/-- C3 counterexample: for a fresh normal-priority notification whose
recipient has default (all-allowing) preferences, `should_deliver` is
true for every channel, yet after `process_notification` the email and
push delivery flags are still false and no payload was pushed to the
recipient's user group — refuting the claim at this input. -/
theorem C3_counterexample :
    (NotificationPreference.should_send_notification defaultPreference
        Priority.normal 100 2 0 = true) ∧
    ((process_notification (fun _ => defaultPreference)
        (Notification.create Priority.normal) 100 2 0).1.email_delivered = false) ∧
    ((process_notification (fun _ => defaultPreference)
        (Notification.create Priority.normal) 100 2 0).1.push_delivered = false) ∧
    (SideEffect.pushToUserGroup ∉ (process_notification (fun _ => defaultPreference)
        (Notification.create Priority.normal) 100 2 0).2) := by
  decide

/-- C3 amended: `process_notification` sets only the in_app delivery
flag (when in_app `should_deliver` is true, also stamping the row
delivered); the email and push flags are left exactly as they were, the
email/push branches being print-only stubs, and no notification payload
is ever pushed to the recipient's user group by this handler. -/
theorem C3_delivery_flags (prefs : DeliveryMethod → NotificationPreference)
    (n : NotificationRec) (now wd cnt : Nat) :
    ((prefs DeliveryMethod.in_app).should_send_notification
        n.priority now wd cnt = true →
      (process_notification prefs n now wd cnt).1.in_app_delivered = true ∧
      (process_notification prefs n now wd cnt).1.status = "delivered") ∧
    (process_notification prefs n now wd cnt).1.email_delivered
      = n.email_delivered ∧
    (process_notification prefs n now wd cnt).1.push_delivered
      = n.push_delivered ∧
    SideEffect.pushToUserGroup ∉ (process_notification prefs n now wd cnt).2 := by
  unfold process_notification
  simp only [List.foldl]
  by_cases h1 : (prefs DeliveryMethod.in_app).should_send_notification
      n.priority now wd cnt <;>
    by_cases h2 : (prefs DeliveryMethod.email).should_send_notification
        n.priority now wd cnt <;>
      by_cases h3 : (prefs DeliveryMethod.push).should_send_notification
          n.priority now wd cnt <;>
        simp [processChannel, h1, h2, h3, Notification.mark_as_delivered]

/-- C3 amended witness: with default preferences and a fresh
normal-priority notification, the in_app flag is set and the others keep
their initial false value. -/
theorem C3_delivery_flags_witness :
    ((process_notification (fun _ => defaultPreference)
        (Notification.create Priority.normal) 100 2 0).1.in_app_delivered = true) ∧
    ((process_notification (fun _ => defaultPreference)
        (Notification.create Priority.normal) 100 2 0).1.email_delivered
      = (Notification.create Priority.normal).email_delivered) :=
  ⟨((C3_delivery_flags (fun _ => defaultPreference)
        (Notification.create Priority.normal) 100 2 0).1 (by decide)).1,
   (C3_delivery_flags (fun _ => defaultPreference)
        (Notification.create Priority.normal) 100 2 0).2.1⟩

/-- C9: `Message.mark_as_read` is idempotent — a second call (any
reader, any clock) leaves the row exactly as the first call set it; a
first call on an unread row sets the flag and stamps `read_at` with that
call's time; the read-consistency invariant (`read_at` set iff the flag
is set) is preserved by the operation and holds for every message the
chat path creates. -/
theorem C9_mark_read_idempotent :
    (∀ (m : Message) (u1 u2 : Option Nat) (t1 t2 : Nat),
        Message.mark_as_read (Message.mark_as_read m u1 t1) u2 t2
          = Message.mark_as_read m u1 t1) ∧
    (∀ (m : Message) (u : Option Nat) (t : Nat), m.read_by_user = false →
        (Message.mark_as_read m u t).read_by_user = true ∧
        (Message.mark_as_read m u t).read_at = some t) ∧
    (∀ (m : Message) (u : Option Nat) (t : Nat),
        readConsistent m → readConsistent (Message.mark_as_read m u t)) ∧
    (∀ (uid fresh now : Nat) (msgs : List Message) (c : String)
        (r : Option Nat),
        readConsistent (ChatConsumer.save_message uid fresh now msgs c r)) := by
  refine ⟨?_, ?_, ?_, ?_⟩
  · intro m u1 u2 t1 t2
    unfold Message.mark_as_read
    by_cases h : m.read_by_user <;> simp [h]
  · intro m u t h
    unfold Message.mark_as_read
    simp [h]
  · intro m u t h
    unfold readConsistent at h ⊢
    unfold Message.mark_as_read
    by_cases hr : m.read_by_user <;> simp [hr, h]
  · intro uid fresh now msgs c r
    unfold readConsistent ChatConsumer.save_message
    rfl

/-- C9 witness: marking a fresh chat message read once and then again
yields the state of the first call, and the invariant survives. -/
theorem C9_mark_read_idempotent_witness :
    (Message.mark_as_read
        (Message.mark_as_read (ChatConsumer.save_message 1 42 10 [] "hi" none)
          (some 2) 11)
        (some 3) 12
      = Message.mark_as_read (ChatConsumer.save_message 1 42 10 [] "hi" none)
          (some 2) 11) ∧
    readConsistent
      (Message.mark_as_read (ChatConsumer.save_message 1 42 10 [] "hi" none)
        (some 2) 11) :=
  ⟨C9_mark_read_idempotent.1 (ChatConsumer.save_message 1 42 10 [] "hi" none)
      (some 2) (some 3) 11 12,
   C9_mark_read_idempotent.2.2.1 (ChatConsumer.save_message 1 42 10 [] "hi" none)
      (some 2) 11
      (C9_mark_read_idempotent.2.2.2 1 42 10 [] "hi" none)⟩

/-- C2 counterexample: a valid submission of "hello" produces exactly
one persist event, carrying status "Sent" already — there is no persist
with status pending and no pending-to-sent transition event, refuting
the claim at this input. -/
theorem C2_counterexample :
    ((ChatConsumer.receive 1 42 10 { messages := [], typing := none }
        (Frame.chat_message (some "hello") none)).2
      = [Event.persistMessage (ChatConsumer.save_message 1 42 10 [] "hello" none),
         Event.broadcastChat (ChatConsumer.save_message 1 42 10 [] "hello" none)]) ∧
    ((ChatConsumer.save_message 1 42 10 [] "hello" none).status = "Sent") ∧
    (("Sent" : String) ≠ "pending") := by
  refine ⟨rfl, rfl, by decide⟩

/-- C2 amended: an accepted chat submission persists the message exactly
once, directly with stored status "Sent" (no pending state and no
status transition), with sender fields set to the acting internal user,
and the room broadcast follows that single persist. -/
theorem C2_persist_sent_then_broadcast (uid fresh now : Nat) (st : ChatState)
    (c : String) (r : Option Nat) (h : c ≠ "") :
    (ChatConsumer.receive uid fresh now st (Frame.chat_message (some c) r)).2
      = [Event.persistMessage
          (ChatConsumer.save_message uid fresh now st.messages c r),
         Event.broadcastChat
          (ChatConsumer.save_message uid fresh now st.messages c r)] ∧
    (ChatConsumer.save_message uid fresh now st.messages c r).status = "Sent" ∧
    (ChatConsumer.save_message uid fresh now st.messages c r).sender_type
      = "User" ∧
    (ChatConsumer.save_message uid fresh now st.messages c r).sender_user
      = some uid := by
  unfold ChatConsumer.receive ChatConsumer.handle_chat_message
  simp [h, ChatConsumer.save_message]

/-- C2 amended witness: concrete submission of "hello". -/
theorem C2_persist_sent_then_broadcast_witness :
    (ChatConsumer.receive 1 42 10 { messages := [], typing := none }
        (Frame.chat_message (some "hello") none)).2
      = [Event.persistMessage (ChatConsumer.save_message 1 42 10 [] "hello" none),
         Event.broadcastChat (ChatConsumer.save_message 1 42 10 [] "hello" none)] :=
  (C2_persist_sent_then_broadcast 1 42 10 { messages := [], typing := none }
      "hello" none (by decide)).1

/-- C5 counterexample: a chat_message frame with empty content leaves
the state untouched and produces NO events at all — in particular no
structured error frame is returned to the client, refuting the claim at
this input (the connection does stay open: no close event either). -/
theorem C5_counterexample :
    (ChatConsumer.receive 1 7 10 { messages := [], typing := none }
        (Frame.chat_message (some "") none)
      = ({ messages := [], typing := none }, [])) ∧
    (Event.errorFrame ∉ (ChatConsumer.receive 1 7 10
        { messages := [], typing := none }
        (Frame.chat_message (some "") none)).2) := by
  decide

/-- C5 amended: a chat submission that fails validation (missing or
empty content) is silently dropped — nothing is persisted, no frame of
any kind is sent back, and the connection is not closed. -/
theorem C5_validation_failure_silent (uid fresh now : Nat) (st : ChatState)
    (c : Option String) (r : Option Nat) (h : c = none ∨ c = some "") :
    ChatConsumer.receive uid fresh now st (Frame.chat_message c r)
      = (st, []) := by
  rcases h with h | h <;> subst h <;>
    simp [ChatConsumer.receive, ChatConsumer.handle_chat_message]

/-- C5 amended witness: the empty-content frame concretely. -/
theorem C5_validation_failure_silent_witness :
    ChatConsumer.receive 1 7 10 { messages := [], typing := none }
        (Frame.chat_message (some "") none)
      = ({ messages := [], typing := none }, []) :=
  C5_validation_failure_silent 1 7 10 { messages := [], typing := none }
    (some "") none (Or.inr rfl)

/-- C7 counterexample: after a first typing_start at t = 5 the indicator
row is typing; a second typing_start at t = 6 still emits a typing
broadcast (the claim says none may be emitted) and leaves the row
byte-for-byte unchanged — `last_activity` stays 5, so not even the
claimed refresh happens. -/
theorem C7_counterexample :
    ((ChatConsumer.receive 1 0 5 { messages := [], typing := none }
        Frame.typing_start).1.typing
      = some { is_typing := true, started_at := 5, last_activity := 5 }) ∧
    (ChatConsumer.receive 1 0 6
        (ChatConsumer.receive 1 0 5 { messages := [], typing := none }
          Frame.typing_start).1
        Frame.typing_start
      = ((ChatConsumer.receive 1 0 5 { messages := [], typing := none }
            Frame.typing_start).1,
         [Event.broadcastTyping 1 true])) := by
  decide

/-- C7 amended: typing_start immediately followed by typing_stop leaves
the indicator not typing; the consumer emits exactly one typing
broadcast for EVERY typing_start and typing_stop frame, repeated starts
included; and a repeated typing_start while already typing leaves the
stored row entirely unchanged (no `last_activity` refresh, since no save
runs). -/
theorem C7_typing_behavior :
    (∀ (uid f1 f2 t1 t2 : Nat) (st : ChatState),
        ((ChatConsumer.receive uid f2 t2
            (ChatConsumer.receive uid f1 t1 st Frame.typing_start).1
            Frame.typing_stop).1.typing.map TypingRow.is_typing)
          = some false) ∧
    (∀ (uid fresh now : Nat) (st : ChatState),
        (ChatConsumer.receive uid fresh now st Frame.typing_start).2
          = [Event.broadcastTyping uid true] ∧
        (ChatConsumer.receive uid fresh now st Frame.typing_stop).2
          = [Event.broadcastTyping uid false]) ∧
    (∀ (r : TypingRow) (now : Nat), r.is_typing = true →
        TypingIndicator.set_typing (some r) true now = r) := by
  refine ⟨?_, ?_, ?_⟩
  · intro uid f1 f2 t1 t2 st
    rfl
  · intro uid fresh now st
    exact ⟨rfl, rfl⟩
  · intro r now h
    unfold TypingIndicator.set_typing
    simp [h]

/-- C7 amended witness: concrete start-stop round trip and a concrete
repeated start leaving the row unchanged. -/
theorem C7_typing_behavior_witness :
    (((ChatConsumer.receive 1 0 6
        (ChatConsumer.receive 1 0 5 { messages := [], typing := none }
          Frame.typing_start).1
        Frame.typing_stop).1.typing.map TypingRow.is_typing) = some false) ∧
    (TypingIndicator.set_typing
        (some { is_typing := true, started_at := 5, last_activity := 5 }) true 6
      = { is_typing := true, started_at := 5, last_activity := 5 }) :=
  ⟨C7_typing_behavior.1 1 0 0 5 6 { messages := [], typing := none },
   C7_typing_behavior.2.2 { is_typing := true, started_at := 5, last_activity := 5 }
      6 rfl⟩

/-- C6: the access decision at session-open: an authenticated manager or
system admin is authorized whenever the conversation exists; any other
authenticated principal is authorized iff they are the conversation's
assigned user; a missing conversation or an unauthenticated principal
is always refused; and a refused connection is closed without the room
group ever being joined. -/
theorem C6_access_guard :
    (∀ (u : UserRec) (c : ConvRow),
        (u.role = Role.manager ∨ u.role = Role.system_admin) →
        authorize (some u) (some c) = true) ∧
    (∀ (u : UserRec) (c : ConvRow),
        u.role ≠ Role.manager → u.role ≠ Role.system_admin →
        (authorize (some u) (some c) = true ↔ c.assigned_user = some u.id)) ∧
    (∀ p, authorize p none = false) ∧
    (∀ conv, authorize none conv = false) ∧
    (∀ p conv, authorize p conv = false →
        ChatConsumer.connect p conv = (ConnectOutcome.closed, false)) := by
  refine ⟨?_, ?_, ?_, ?_, ?_⟩
  · intro u c h
    unfold authorize ChatConsumer.check_conversation_access
    rcases h with h | h <;> simp [h]
  · intro u c h1 h2
    unfold authorize ChatConsumer.check_conversation_access
    simp [h1, h2]
  · intro p
    cases p <;> rfl
  · intro conv
    rfl
  · intro p conv h
    cases p with
    | none => rfl
    | some u =>
        simp only [authorize] at h
        unfold ChatConsumer.connect
        simp [h]

/-- C6 witness: a manager joins a conversation assigned to nobody; an
unassigned basic user is refused and the connection closes with no
registry join. -/
theorem C6_access_guard_witness :
    (authorize (some { id := 1, role := Role.manager })
        (some { assigned_user := none }) = true) ∧
    (ChatConsumer.connect (some { id := 2, role := Role.basic_user })
        (some { assigned_user := some 3 })
      = (ConnectOutcome.closed, false)) :=
  ⟨C6_access_guard.1 { id := 1, role := Role.manager }
      { assigned_user := none } (Or.inl rfl),
   C6_access_guard.2.2.2.2 (some { id := 2, role := Role.basic_user })
      (some { assigned_user := some 3 }) (by decide)⟩

/-- C10: an ack marks the referenced notification read only when the
acking user is its recipient — an ack naming another user's notification
or an unknown id (or no id) leaves the store unchanged, rows belonging
to other users always survive untouched, a uniquely matching row is
marked read, and the client is never sent anything back (errors are
swallowed). -/
theorem C10_notification_ack :
    (∀ (db : List StoredNotif) (uid i now : Nat),
        (∀ r ∈ db, notifMatch i uid r = false) →
        NotificationConsumer.mark_notification_read db uid (some i) now = db) ∧
    (∀ (db : List StoredNotif) (uid now : Nat),
        NotificationConsumer.mark_notification_read db uid none now = db) ∧
    (∀ (db : List StoredNotif) (uid now : Nat) (nid : Option Nat)
        (r : StoredNotif),
        r ∈ db → r.recipient ≠ uid →
        r ∈ NotificationConsumer.mark_notification_read db uid nid now) ∧
    (∀ (db : List StoredNotif) (uid i now : Nat) (r : StoredNotif),
        (db.filter (notifMatch i uid)).length = 1 →
        r ∈ db → notifMatch i uid r = true →
        { r with data := Notification.mark_as_read r.data now }
          ∈ NotificationConsumer.mark_notification_read db uid (some i) now) ∧
    (∀ (db : List StoredNotif) (uid now : Nat) (f : NotifFrame),
        (NotificationConsumer.receive db uid now f).2 = []) := by
  refine ⟨?_, ?_, ?_, ?_, ?_⟩
  · intro db uid i now h
    have hnil : db.filter (notifMatch i uid) = [] := by
      rw [List.filter_eq_nil_iff]
      intro a ha
      simp [h a ha]
    unfold NotificationConsumer.mark_notification_read
    simp [hnil]
  · intro db uid now
    rfl
  · intro db uid now nid r hr hrec
    cases nid with
    | none => exact hr
    | some i =>
        simp only [NotificationConsumer.mark_notification_read]
        by_cases hlen : (db.filter (notifMatch i uid)).length = 1
        · rw [if_pos hlen]
          refine List.mem_map.mpr ⟨r, hr, ?_⟩
          simp [notifMatch, hrec]
        · rw [if_neg hlen]
          exact hr
  · intro db uid i now r hlen hr hm
    simp only [NotificationConsumer.mark_notification_read]
    rw [if_pos hlen]
    exact List.mem_map.mpr ⟨r, hr, by simp [hm]⟩
  · intro db uid now f
    cases f <;> rfl

/-- C10 witness: one stored notification for user 7; user 9's ack
leaves the store unchanged, user 7's ack marks it read, and no frame
goes back in either case. -/
theorem C10_notification_ack_witness :
    (NotificationConsumer.mark_notification_read
        [{ id := 1, recipient := 7, data := Notification.create Priority.normal }]
        9 (some 1) 50
      = [{ id := 1, recipient := 7, data := Notification.create Priority.normal }]) ∧
    ({ id := 1, recipient := 7,
       data := Notification.mark_as_read (Notification.create Priority.normal) 50 }
      ∈ NotificationConsumer.mark_notification_read
        [{ id := 1, recipient := 7, data := Notification.create Priority.normal }]
        7 (some 1) 50) ∧
    ((NotificationConsumer.receive
        [{ id := 1, recipient := 7, data := Notification.create Priority.normal }]
        9 50 (NotifFrame.notification_ack (some 1))).2 = []) :=
  ⟨C10_notification_ack.1
      [{ id := 1, recipient := 7, data := Notification.create Priority.normal }]
      9 1 50 (by decide),
   C10_notification_ack.2.2.2.1
      [{ id := 1, recipient := 7, data := Notification.create Priority.normal }]
      7 1 50 { id := 1, recipient := 7, data := Notification.create Priority.normal }
      (by decide) (by simp) (by decide),
   C10_notification_ack.2.2.2.2
      [{ id := 1, recipient := 7, data := Notification.create Priority.normal }]
      9 50 (NotifFrame.notification_ack (some 1))⟩

/-- C1: the post-save handler increments `message_count` by a
read-modify-write on the in-memory instance, not a store-level atomic
increment.  Interleaving two concurrent submissions (both load, then
both increment-and-save) completes both handlers yet raises the stored
count by 1 instead of 2 — a lost update; the serial schedule and the
store-level atomic increment the spec demands both give 2. -/
theorem C1_lost_update_on_interleaved_submissions :
    ((runSchedule [false, true, false, true] (initialSubmits 0)).pc1 = 2) ∧
    ((runSchedule [false, true, false, true] (initialSubmits 0)).pc2 = 2) ∧
    ((runSchedule [false, true, false, true] (initialSubmits 0)).store = 1) ∧
    ((runSchedule [false, false, true, true] (initialSubmits 0)).store = 2) ∧
    (atomic_increment (atomic_increment 0) = 2) := by
  decide

end CRMCore
